import Mathlib

/-!
Verification development for the soarsdk client library.

The definitions below are a shallow embedding of the Python sources
`soarsdk/objects.py`, `soarsdk/exceptions.py` and `soarsdk/client.py`:
Python attribute dictionaries become association structures, machine
behaviour (truthiness, dict assignment) is modelled explicitly, and
fallible client operations return an explicit error component together
with the trace of HTTP requests they would issue.
-/

/-! ## Python value model (objects.py: PhantomObject)

A `PhantomObject`'s `__dict__` maps attribute names to Python values.
`PyValue`, `PyList` and `PyDict` embed the value universe that
`PhantomObject.update` and `PhantomObject.toDict` traverse: plain
scalars, lists, dicts, and nested `PhantomObject`s (`pyObj`). -/

mutual

inductive PyValue where
  | pyNone : PyValue
  | pyBool : Bool → PyValue
  | pyInt : Int → PyValue
  | pyStr : String → PyValue
  | pyList : PyList → PyValue
  | pyDict : PyDict → PyValue
  | pyObj : PyDict → PyValue

inductive PyList where
  | nil : PyList
  | cons : PyValue → PyList → PyList

inductive PyDict where
  | nil : PyDict
  | cons : String → PyValue → PyDict → PyDict

end

/-- Python truthiness (`if value:`) for the embedded value universe.
`None`, `False`, `0`, `""` and empty collections are falsy; a
`PhantomObject` instance (which defines neither `__bool__` nor
`__len__`) is always truthy. -/
def pyTruthy : PyValue → Bool
  | .pyNone => false
  | .pyBool b => b
  | .pyInt n => n != 0
  | .pyStr s => s != ""
  | .pyList .nil => false
  | .pyList _ => true
  | .pyDict .nil => false
  | .pyDict _ => true
  | .pyObj _ => true

/-- Python dict lookup `d[key]` / `d.get(key)`: first (unique) matching key. -/
def PyDict.lookup : PyDict → String → Option PyValue
  | .nil, _ => none
  | .cons k v rest, key => if k = key then some v else rest.lookup key

/-- The key list of a Python dict, in insertion order. -/
def PyDict.keys : PyDict → List String
  | .nil => []
  | .cons k _ rest => k :: rest.keys

/-- Python dict assignment `d[key] = v`: replaces an existing binding in
place, otherwise appends the new binding at the end. -/
def PyDict.set : PyDict → String → PyValue → PyDict
  | .nil, key, v => .cons key v .nil
  | .cons k w rest, key, v =>
      if k = key then .cons k v rest else .cons k w (rest.set key v)

/-- `PhantomObject.update(object)` (objects.py lines 18-23): for every
attribute of the incoming object, copy it over the held object's
attribute only if the incoming value is truthy. -/
def pyUpdate : PyDict → PyDict → PyDict
  | a, .nil => a
  | a, .cons k v rest => pyUpdate (if pyTruthy v then a.set k v else a) rest

mutual

/-- `PhantomObject.toDict` (objects.py lines 37-54): keep only truthy
attributes, serializing nested `PhantomObject`s (directly, or one level
inside a dict or list value) to dicts. -/
def toDict : PyDict → PyDict
  | .nil => .nil
  | .cons k v rest =>
      if pyTruthy v then .cons k (serializeEntry v) (toDict rest) else toDict rest

/-- The per-value transform `toDict` applies to a kept attribute value. -/
def serializeEntry : PyValue → PyValue
  | .pyDict xs => .pyDict (serializeDictVals xs)
  | .pyList xs => .pyList (serializeListVals xs)
  | .pyObj fs => .pyDict (toDict fs)
  | v => v

/-- Entry transform for dict-valued attributes: `v.toDict() if
isinstance(v, PhantomObject) else v` over the dict's values. -/
def serializeDictVals : PyDict → PyDict
  | .nil => .nil
  | .cons k v rest => .cons k (serializeInner v) (serializeDictVals rest)

/-- Element transform for list-valued attributes. -/
def serializeListVals : PyList → PyList
  | .nil => .nil
  | .cons v rest => .cons (serializeInner v) (serializeListVals rest)

/-- `v.toDict() if isinstance(v, PhantomObject) else v`. -/
def serializeInner : PyValue → PyValue
  | .pyObj fs => .pyDict (toDict fs)
  | v => v

end

/-- All attribute values of a dict are falsy. -/
def PyDict.allFalsy : PyDict → Bool
  | .nil => true
  | .cons _ v rest => !pyTruthy v && rest.allFalsy

/-! ### Lemmas about `set`, `pyUpdate` and `toDict` -/

theorem PyDict.lookup_set_eq : ∀ (d : PyDict) (k : String) (v : PyValue),
    (d.set k v).lookup k = some v
  | .nil, k, v => by simp [PyDict.set, PyDict.lookup]
  | .cons k' w rest, k, v => by
      by_cases h : k' = k
      · simp [PyDict.set, h, PyDict.lookup]
      · simp [PyDict.set, h, PyDict.lookup, PyDict.lookup_set_eq rest k v]

theorem PyDict.lookup_set_ne : ∀ (d : PyDict) (k k' : String) (v : PyValue),
    k' ≠ k → (d.set k' v).lookup k = d.lookup k
  | .nil, k, k', v, h => by simp [PyDict.set, PyDict.lookup, h]
  | .cons k0 w rest, k, k', v, h => by
      by_cases h0 : k0 = k'
      · subst h0
        simp [PyDict.set, PyDict.lookup, h]
      · by_cases h1 : k0 = k
        · simp [PyDict.set, h0, PyDict.lookup, h1, Ne.symm h]
        · simp [PyDict.set, h0, PyDict.lookup, h1,
            PyDict.lookup_set_ne rest k k' v h]

theorem PyDict.keys_set : ∀ (d : PyDict) (k : String) (v : PyValue),
    (d.set k v).keys = if k ∈ d.keys then d.keys else d.keys ++ [k]
  | .nil, k, v => by simp [PyDict.set, PyDict.keys]
  | .cons k0 w rest, k, v => by
      by_cases h0 : k0 = k
      · simp [PyDict.set, h0, PyDict.keys, List.mem_cons]
      · have hne : ¬(k = k0) := fun h => h0 h.symm
        by_cases hm : k ∈ rest.keys
        · simp [PyDict.set, h0, PyDict.keys, PyDict.keys_set rest k v, hm, hne]
        · simp [PyDict.set, h0, PyDict.keys, PyDict.keys_set rest k v, hm, hne]

theorem PyDict.nodup_keys_set (d : PyDict) (k : String) (v : PyValue)
    (h : d.keys.Nodup) : (d.set k v).keys.Nodup := by
  rw [PyDict.keys_set]
  by_cases hm : k ∈ d.keys
  · simpa [hm] using h
  · simp only [hm, if_false]
    refine List.Nodup.append h (List.nodup_singleton k) ?_
    intro x hx hx'
    simp only [List.mem_singleton] at hx'
    exact hm (hx' ▸ hx)

theorem PyDict.lookup_eq_none_of_not_mem : ∀ (d : PyDict) (k : String),
    k ∉ d.keys → d.lookup k = none
  | .nil, _, _ => by simp [PyDict.lookup]
  | .cons k0 w rest, k, h => by
      simp only [PyDict.keys, List.mem_cons, not_or] at h
      have hk : k0 ≠ k := fun hk => h.1 hk.symm
      simp [PyDict.lookup, hk, PyDict.lookup_eq_none_of_not_mem rest k h.2]

theorem pyUpdate_lookup_not_mem : ∀ (b a : PyDict) (k : String),
    k ∉ b.keys → (pyUpdate a b).lookup k = a.lookup k
  | .nil, a, k, _ => by simp [pyUpdate]
  | .cons k0 v rest, a, k, h => by
      simp only [PyDict.keys, List.mem_cons, not_or] at h
      have hk : k0 ≠ k := fun hk => h.1 hk.symm
      rw [pyUpdate, pyUpdate_lookup_not_mem rest _ k h.2]
      by_cases ht : pyTruthy v
      · simp [ht, PyDict.lookup_set_ne _ _ _ _ hk]
      · simp [ht]

theorem pyUpdate_keys_nodup : ∀ (b a : PyDict), a.keys.Nodup →
    (pyUpdate a b).keys.Nodup
  | .nil, a, ha => by simpa [pyUpdate] using ha
  | .cons k0 v rest, a, ha => by
      rw [pyUpdate]
      by_cases ht : pyTruthy v
      · simpa [ht] using
          pyUpdate_keys_nodup rest _ (PyDict.nodup_keys_set _ _ _ ha)
      · simpa [ht] using pyUpdate_keys_nodup rest _ ha

theorem pyUpdate_lookup_truthy : ∀ (b a : PyDict) (k : String) (v : PyValue),
    b.keys.Nodup → b.lookup k = some v → pyTruthy v = true →
    (pyUpdate a b).lookup k = some v
  | .nil, a, k, v, _, h, _ => by simp [PyDict.lookup] at h
  | .cons k0 w rest, a, k, v, hb, h, ht => by
      simp only [PyDict.keys, List.nodup_cons] at hb
      rw [PyDict.lookup] at h
      by_cases hk : k0 = k
      · subst hk
        have h' : w = v := by simpa using h
        subst h'
        rw [pyUpdate, if_pos ht,
          pyUpdate_lookup_not_mem rest _ _ hb.1, PyDict.lookup_set_eq]
      · rw [if_neg hk] at h
        rw [pyUpdate]
        exact pyUpdate_lookup_truthy rest _ k v hb.2 h ht

theorem pyUpdate_lookup_falsy : ∀ (b a : PyDict) (k : String),
    b.keys.Nodup → (∀ v, b.lookup k = some v → pyTruthy v = false) →
    (pyUpdate a b).lookup k = a.lookup k
  | .nil, a, k, _, _ => by simp [pyUpdate]
  | .cons k0 w rest, a, k, hb, h => by
      simp only [PyDict.keys, List.nodup_cons] at hb
      by_cases hk : k0 = k
      · subst hk
        have hw : pyTruthy w = false := h w (by simp [PyDict.lookup])
        rw [pyUpdate, if_neg (by simp [hw]),
          pyUpdate_lookup_not_mem rest _ _ hb.1]
      · have hrest : ∀ v, rest.lookup k = some v → pyTruthy v = false := by
          intro v hv
          exact h v (by simpa [PyDict.lookup, hk] using hv)
        rw [pyUpdate, pyUpdate_lookup_falsy rest _ k hb.2 hrest]
        by_cases ht : pyTruthy w
        · simp [ht, PyDict.lookup_set_ne _ _ _ _ hk]
        · simp [ht]

theorem toDict_lookup_not_mem : ∀ (d : PyDict) (k : String),
    k ∉ d.keys → (toDict d).lookup k = none
  | .nil, _, _ => by simp [toDict, PyDict.lookup]
  | .cons k0 v rest, k, h => by
      simp only [PyDict.keys, List.mem_cons, not_or] at h
      have hk : k0 ≠ k := fun hk => h.1 hk.symm
      rw [toDict]
      by_cases ht : pyTruthy v
      · simp [ht, PyDict.lookup, hk, toDict_lookup_not_mem rest k h.2]
      · simp [ht, toDict_lookup_not_mem rest k h.2]

theorem toDict_lookup_truthy : ∀ (d : PyDict) (k : String) (v : PyValue),
    d.keys.Nodup → d.lookup k = some v → pyTruthy v = true →
    (toDict d).lookup k = some (serializeEntry v)
  | .nil, k, v, _, h, _ => by simp [PyDict.lookup] at h
  | .cons k0 w rest, k, v, hd, h, ht => by
      simp only [PyDict.keys, List.nodup_cons] at hd
      rw [PyDict.lookup] at h
      by_cases hk : k0 = k
      · subst hk
        have h' : w = v := by simpa using h
        subst h'
        rw [toDict, if_pos ht]
        simp [PyDict.lookup]
      · rw [if_neg hk] at h
        rw [toDict]
        by_cases hw : pyTruthy w
        · simp [hw, PyDict.lookup, hk,
            toDict_lookup_truthy rest k v hd.2 h ht]
        · simp [hw, toDict_lookup_truthy rest k v hd.2 h ht]

theorem toDict_lookup_falsy : ∀ (d : PyDict) (k : String),
    d.keys.Nodup → (∀ v, d.lookup k = some v → pyTruthy v = false) →
    (toDict d).lookup k = none
  | .nil, _, _, _ => by simp [toDict, PyDict.lookup]
  | .cons k0 w rest, k, hd, h => by
      simp only [PyDict.keys, List.nodup_cons] at hd
      by_cases hk : k0 = k
      · subst hk
        have hw : pyTruthy w = false := h w (by simp [PyDict.lookup])
        rw [toDict, if_neg (by simp [hw])]
        exact toDict_lookup_not_mem rest _ hd.1
      · have hrest : ∀ v, rest.lookup k = some v → pyTruthy v = false := by
          intro v hv
          exact h v (by simpa [PyDict.lookup, hk] using hv)
        rw [toDict]
        by_cases hw : pyTruthy w
        · simp [hw, PyDict.lookup, hk, toDict_lookup_falsy rest k hd.2 hrest]
        · simp [hw, toDict_lookup_falsy rest k hd.2 hrest]

theorem toDict_of_allFalsy : ∀ (d : PyDict), d.allFalsy = true →
    toDict d = .nil
  | .nil, _ => by simp [toDict]
  | .cons k v rest, h => by
      simp only [PyDict.allFalsy, Bool.and_eq_true, Bool.not_eq_true'] at h
      rw [toDict, if_neg (by simp [h.1])]
      exact toDict_of_allFalsy rest h.2


/-! ## Artifact hashing (objects.py: Artifact.__eq__ / Artifact.__hash__) -/

/-- Model of Python's built-in string hash: a deterministic function of
the character sequence. (The interpreter's actual hash is
implementation-specific; only its dependence on the character sequence
matters for the collision below.) -/
def pyStringHash (s : String) : UInt64 :=
  s.data.foldl (fun h c => h * 31 + UInt64.ofNat c.toNat) 5381

/-- `Artifact.__hash__` (objects.py lines 174-176):
`hash(self.name + self.label + self.id)` — the hash of the
separator-free concatenation of the name, label and id attributes, for
artifacts whose three attributes are strings. -/
def artifactHashVal (name label id : String) : UInt64 :=
  pyStringHash (name ++ label ++ id)

/-! ## C1 / C10 / C9 theorems -/

/-- C1: merging a fetched snapshot `b` into a held entity `a`
(`PhantomObject.update`) and then serializing (`PhantomObject.toDict`)
yields a dictionary with no field that is empty-or-absent in both `a`
and `b`, and in which every field non-empty in `b` carries `b`'s value
(serialized), overriding `a`'s value. -/
theorem c1_serialize_merge (a b : PyDict) (k : String)
    (ha : a.keys.Nodup) (hb : b.keys.Nodup) :
    ((∀ va, a.lookup k = some va → pyTruthy va = false) →
     (∀ vb, b.lookup k = some vb → pyTruthy vb = false) →
     (toDict (pyUpdate a b)).lookup k = none) ∧
    (∀ vb, b.lookup k = some vb → pyTruthy vb = true →
     (toDict (pyUpdate a b)).lookup k = some (serializeEntry vb)) := by
  constructor
  · intro h1 h2
    apply toDict_lookup_falsy _ _ (pyUpdate_keys_nodup b a ha)
    intro v hv
    rw [pyUpdate_lookup_falsy b a k hb h2] at hv
    exact h1 v hv
  · intro vb hvb ht
    exact toDict_lookup_truthy _ _ _ (pyUpdate_keys_nodup b a ha)
      (pyUpdate_lookup_truthy b a k vb hb hvb ht) ht

/-- Witness for C1 on a concrete pair of entities: the field empty in
both is omitted from the serialized merge, and the field non-empty in
the snapshot overrides the held value. -/
theorem c1_serialize_merge_witness :
    (toDict (pyUpdate
        (.cons "name" (.pyStr "old") (.cons "description" (.pyStr "") .nil))
        (.cons "name" (.pyStr "new") (.cons "description" (.pyStr "") .nil)))).lookup
      "description" = none ∧
    (toDict (pyUpdate
        (.cons "name" (.pyStr "old") (.cons "description" (.pyStr "") .nil))
        (.cons "name" (.pyStr "new") (.cons "description" (.pyStr "") .nil)))).lookup
      "name" = some (serializeEntry (.pyStr "new")) := by
  constructor
  · refine (c1_serialize_merge _ _ "description" (by decide) (by decide)).1 ?_ ?_
    · intro va h
      have h' : some (PyValue.pyStr "") = some va := h
      rw [← Option.some.inj h']
      rfl
    · intro vb h
      have h' : some (PyValue.pyStr "") = some vb := h
      rw [← Option.some.inj h']
      rfl
  · exact (c1_serialize_merge _ _ "name" (by decide) (by decide)).2
      (PyValue.pyStr "new") rfl rfl

/-- C10: "empty" means Python-falsy throughout the entity discipline: a
field whose value is `False`, `0`, `""`, an empty collection, or `None`
is omitted by `toDict` (an all-falsy entity serializes to the empty
dictionary), and `update` never copies such a falsy value from the
incoming snapshot — so e.g. `run_auto=False` or `status_id=0` can
neither be merged in nor transmitted. -/
theorem c10_falsy_is_empty :
    (∀ d : PyDict, d.allFalsy = true → toDict d = .nil) ∧
    (∀ (a b : PyDict) (k : String) (vb : PyValue), b.keys.Nodup →
      b.lookup k = some vb → pyTruthy vb = false →
      (pyUpdate a b).lookup k = a.lookup k) ∧
    pyTruthy (.pyBool false) = false ∧ pyTruthy (.pyInt 0) = false ∧
    pyTruthy (.pyStr "") = false ∧ pyTruthy (.pyList .nil) = false ∧
    pyTruthy (.pyDict .nil) = false ∧ pyTruthy .pyNone = false ∧
    toDict (.cons "run_auto" (.pyBool false)
      (.cons "status_id" (.pyInt 0) .nil)) = .nil := by
  refine ⟨toDict_of_allFalsy, ?_, rfl, rfl, rfl, rfl, rfl, rfl, rfl⟩
  intro a b k vb hb hvb hf
  apply pyUpdate_lookup_falsy b a k hb
  intro v hv
  rw [hvb] at hv
  exact Option.some.inj hv ▸ hf

/-- Witness for C10 at concrete inputs: an all-falsy entity serializes
to the empty dictionary, and a deliberately-set `run_auto=False` in the
incoming snapshot is not merged over the held `True`. -/
theorem c10_falsy_is_empty_witness :
    toDict (.cons "in_case" (.pyBool false) (.cons "tags" (.pyList .nil) .nil))
      = .nil ∧
    (pyUpdate (.cons "run_auto" (.pyBool true) .nil)
        (.cons "run_auto" (.pyBool false) .nil)).lookup "run_auto"
      = (PyDict.cons "run_auto" (.pyBool true) .nil).lookup "run_auto" := by
  exact ⟨c10_falsy_is_empty.1 _ rfl,
    c10_falsy_is_empty.2.1 _ _ "run_auto" (.pyBool false) (by decide) rfl rfl⟩

/-- C9: two artifacts that differ in name and label (name `"ab"` /
label `"c"` versus name `"a"` / label `"bc"`, same string id) receive
the same `__hash__`, because the hash is taken over the separator-free
concatenation of name, label and id. -/
theorem c9_artifact_hash_collision :
    artifactHashVal "ab" "c" "7" = artifactHashVal "a" "bc" "7" ∧
    ("ab" : String) ≠ "a" ∧ ("c" : String) ≠ "bc" := by
  refine ⟨rfl, by decide, by decide⟩

/-! ## Transport primitive and server errors
(client.py: `PhantomClient._handle_request`, exceptions.py:
`ServerException`) -/

/-- The parts of a `requests.PreparedRequest` the error path reads. -/
structure HttpRequest where
  method : String
  url : String
  body : String

/-- The parts of a `requests.Response` the error path reads; `jsonBody`
is the decoded JSON body as a flat string-to-string mapping. -/
structure HttpResponse where
  request : HttpRequest
  status_code : Nat
  reason : String
  url : String
  jsonBody : List (String × String)

/-- `colorama.Fore.RED`. -/
def coloramaForeRed : String := "\x1b[31m"

/-- `colorama.Style.RESET_ALL`. -/
def coloramaStyleResetAll : String := "\x1b[0m"

/-- Python `repr` of one string-to-string dict entry. -/
def jsonEntryRepr (k v : String) : String :=
  "'" ++ k ++ "': '" ++ v ++ "'"

/-- Python `repr` of the entries of a string-to-string dict, comma
separated. -/
def jsonEntriesRepr : List (String × String) → String
  | [] => ""
  | [(k, v)] => jsonEntryRepr k v
  | (k, v) :: rest => jsonEntryRepr k v ++ ", " ++ jsonEntriesRepr rest

/-- Python `repr`/f-string rendering of a string-to-string dict, as
interpolated by `{response.json()}`. -/
def jsonRepr (xs : List (String × String)) : String :=
  "\x7b" ++ jsonEntriesRepr xs ++ "\x7d"

/-- `response.json().get("message")`, rendered as an f-string renders it
(`None` when the key is absent). -/
def failureReason (r : HttpResponse) : String :=
  (List.lookup "message" r.jsonBody).getD "None"

/-- The dedented request/response dump `ServerException` builds for a
400 status (exceptions.py lines 14-24). -/
def serverDumpText (r : HttpResponse) : String :=
  "\n─────────────── Request ───────────────\n"
    ++ r.request.method ++ " " ++ r.request.url ++ "\n"
    ++ r.request.body
    ++ "\n─────────────── Response ───────────────\n"
    ++ toString r.status_code ++ " " ++ r.reason ++ " " ++ r.url ++ "\n"
    ++ jsonRepr r.jsonBody
    ++ "\n────────────────────────────────────────\n"

/-- `ServerException.error_msg` (exceptions.py lines 11-24): a short
method/reason/message/body line for statuses other than 400, the full
request/response dump for status 400 exactly. -/
def serverErrorMsg (r : HttpResponse) : String :=
  if r.status_code ≠ 400 then
    r.request.method ++ " " ++ r.reason ++ "  " ++ failureReason r ++ " "
      ++ r.request.body
  else
    serverDumpText r

/-- The `ServerException` object: its stored `error_code`, stored
`error_msg`, and the message text passed to `Exception.__init__`
(exceptions.py lines 6-28). -/
structure ServerExceptionM where
  error_code : Nat
  error_msg : String
  args : String

/-- `ServerException.__init__` on a response. -/
def mkServerException (r : HttpResponse) : ServerExceptionM :=
  { error_code := r.status_code
    error_msg := serverErrorMsg r
    args := coloramaForeRed ++ toString r.status_code ++ coloramaStyleResetAll
      ++ serverErrorMsg r }

/-- The error path of `PhantomClient._handle_request` (client.py lines
1081-1084): `response.raise_for_status()` raises `HTTPError` exactly for
status codes in [400, 600), which `_handle_request` converts into a
`ServerException` built from the response; otherwise the decoded JSON
body is returned. -/
def handleRequest (r : HttpResponse) :
    Except ServerExceptionM (List (String × String)) :=
  if 400 ≤ r.status_code ∧ r.status_code < 600 then
    .error (mkServerException r)
  else
    .ok r.jsonBody

/-- `needle` occurs contiguously inside `hay`. -/
def SubstrIn (needle hay : String) : Prop :=
  ∃ p q, hay = p ++ needle ++ q

theorem SubstrIn.self (x : String) : SubstrIn x x :=
  ⟨"", "", by simp⟩

theorem SubstrIn.inl {x a : String} (b : String) (h : SubstrIn x a) :
    SubstrIn x (a ++ b) := by
  obtain ⟨p, q, rfl⟩ := h
  exact ⟨p, q ++ b, by simp [String.append_assoc]⟩

theorem SubstrIn.inr {x b : String} (a : String) (h : SubstrIn x b) :
    SubstrIn x (a ++ b) := by
  obtain ⟨p, q, rfl⟩ := h
  exact ⟨a ++ p, q, by simp [String.append_assoc]⟩

/-- Any value bound in the dict occurs in the dict's rendering. -/
theorem substrIn_jsonEntriesRepr : ∀ (xs : List (String × String)) (v : String),
    List.lookup "message" xs = some v → SubstrIn v (jsonEntriesRepr xs)
  | [], v, h => by simp [List.lookup] at h
  | (k, w) :: rest, v, h => by
      by_cases hk : ("message" : String) = k
      · subst hk
        simp only [List.lookup, beq_self_eq_true, Option.some.injEq] at h
        subst h
        cases rest with
        | nil =>
            exact ⟨"'" ++ "message" ++ "': '", "'", by
              simp [jsonEntriesRepr, jsonEntryRepr, String.append_assoc]⟩
        | cons y ys =>
            show SubstrIn w
              (jsonEntryRepr "message" w ++ ", " ++ jsonEntriesRepr (y :: ys))
            refine SubstrIn.inl _ (SubstrIn.inl _ ?_)
            exact ⟨"'" ++ "message" ++ "': '", "'", by
              simp [jsonEntryRepr, String.append_assoc]⟩
      · have hbk : (("message" : String) == k) = false :=
          beq_eq_false_iff_ne.mpr hk
        simp only [List.lookup, hbk] at h
        have ih := substrIn_jsonEntriesRepr rest v h
        cases rest with
        | nil => simp [List.lookup] at h
        | cons y ys =>
            show SubstrIn v
              (jsonEntryRepr k w ++ ", " ++ jsonEntriesRepr (y :: ys))
            exact SubstrIn.inr _ ih

theorem substrIn_jsonRepr (xs : List (String × String)) (v : String)
    (h : List.lookup "message" xs = some v) : SubstrIn v (jsonRepr xs) :=
  SubstrIn.inl _ (SubstrIn.inr _ (substrIn_jsonEntriesRepr xs v h))

/-- C2: every remote call whose response status is non-success (the
HTTPError range [400, 600) that `raise_for_status` raises on) makes
`_handle_request` raise a `ServerException` carrying the original
status code and the remote-supplied `message`; when the status is
exactly 400 the exception message additionally embeds the full
request/response text: method, URL, request body, status, reason and
response body. -/
theorem c2_server_exception (r : HttpResponse) (m : String)
    (h1 : 400 ≤ r.status_code) (h2 : r.status_code < 600)
    (hm : List.lookup "message" r.jsonBody = some m) :
    handleRequest r = .error (mkServerException r) ∧
    (mkServerException r).error_code = r.status_code ∧
    SubstrIn m (mkServerException r).args ∧
    (r.status_code = 400 →
      SubstrIn r.request.method (mkServerException r).args ∧
      SubstrIn r.request.url (mkServerException r).args ∧
      SubstrIn r.request.body (mkServerException r).args ∧
      SubstrIn (toString r.status_code) (mkServerException r).args ∧
      SubstrIn r.reason (mkServerException r).args ∧
      SubstrIn (jsonRepr r.jsonBody) (mkServerException r).args) := by
  have hargs : (mkServerException r).args
      = coloramaForeRed ++ toString r.status_code ++ coloramaStyleResetAll
        ++ serverErrorMsg r := rfl
  refine ⟨by rw [handleRequest, if_pos ⟨h1, h2⟩], rfl, ?_, ?_⟩
  · rw [hargs]
    refine SubstrIn.inr _ ?_
    by_cases h4 : r.status_code = 400
    · rw [serverErrorMsg, if_neg (fun h => h h4), serverDumpText]
      exact SubstrIn.inl _ (SubstrIn.inr _ (substrIn_jsonRepr _ _ hm))
    · rw [serverErrorMsg, if_pos h4]
      have hf : failureReason r = m := by rw [failureReason, hm]; rfl
      rw [hf]
      exact SubstrIn.inl _ (SubstrIn.inl _ (SubstrIn.inr _ (SubstrIn.self m)))
  · intro h4
    have hd : serverErrorMsg r = serverDumpText r := by
      rw [serverErrorMsg, if_neg (fun h => h h4)]
    rw [hargs, hd, serverDumpText]
    refine ⟨?_, ?_, ?_, ?_, ?_, ?_⟩ <;> refine SubstrIn.inr _ ?_
    · exact SubstrIn.inl _ (SubstrIn.inl _ (SubstrIn.inl _ (SubstrIn.inl _
        (SubstrIn.inl _ (SubstrIn.inl _ (SubstrIn.inl _ (SubstrIn.inl _
        (SubstrIn.inl _ (SubstrIn.inl _ (SubstrIn.inl _ (SubstrIn.inl _
        (SubstrIn.inl _ (SubstrIn.inr _ (SubstrIn.self _))))))))))))))
    · exact SubstrIn.inl _ (SubstrIn.inl _ (SubstrIn.inl _ (SubstrIn.inl _
        (SubstrIn.inl _ (SubstrIn.inl _ (SubstrIn.inl _ (SubstrIn.inl _
        (SubstrIn.inl _ (SubstrIn.inl _ (SubstrIn.inl _
        (SubstrIn.inr _ (SubstrIn.self _))))))))))))
    · exact SubstrIn.inl _ (SubstrIn.inl _ (SubstrIn.inl _ (SubstrIn.inl _
        (SubstrIn.inl _ (SubstrIn.inl _ (SubstrIn.inl _ (SubstrIn.inl _
        (SubstrIn.inl _ (SubstrIn.inr _ (SubstrIn.self _))))))))))
    · exact SubstrIn.inl _ (SubstrIn.inl _ (SubstrIn.inl _ (SubstrIn.inl _
        (SubstrIn.inl _ (SubstrIn.inl _ (SubstrIn.inl _
        (SubstrIn.inr _ (SubstrIn.self _))))))))
    · exact SubstrIn.inl _ (SubstrIn.inl _ (SubstrIn.inl _ (SubstrIn.inl _
        (SubstrIn.inl _ (SubstrIn.inr _ (SubstrIn.self _))))))
    · exact SubstrIn.inl _ (SubstrIn.inr _ (SubstrIn.self _))

/-- Witness for C2 at two concrete responses: a 500 and a 400, both
with a remote message. -/
theorem c2_server_exception_witness :
    (handleRequest ⟨⟨"GET", "https://soar/rest/container", ""⟩, 500,
        "Internal Server Error", "https://soar/rest/container",
        [("message", "boom")]⟩
      = .error (mkServerException ⟨⟨"GET", "https://soar/rest/container", ""⟩,
          500, "Internal Server Error", "https://soar/rest/container",
          [("message", "boom")]⟩) ∧
     SubstrIn "boom" (mkServerException ⟨⟨"GET", "https://soar/rest/container",
        ""⟩, 500, "Internal Server Error", "https://soar/rest/container",
        [("message", "boom")]⟩).args) ∧
    SubstrIn "POST" (mkServerException ⟨⟨"POST", "https://soar/rest/artifact",
        "x=1"⟩, 400, "Bad Request", "https://soar/rest/artifact",
        [("message", "bad data")]⟩).args := by
  constructor
  · have h := c2_server_exception
      ⟨⟨"GET", "https://soar/rest/container", ""⟩, 500,
        "Internal Server Error", "https://soar/rest/container",
        [("message", "boom")]⟩ "boom" (by decide) (by decide) rfl
    exact ⟨h.1, h.2.2.1⟩
  · have h := c2_server_exception
      ⟨⟨"POST", "https://soar/rest/artifact", "x=1"⟩, 400, "Bad Request",
        "https://soar/rest/artifact", [("message", "bad data")]⟩
      "bad data" (by decide) (by decide) rfl
    exact (h.2.2.2 rfl).1

/-! ## Domain entities (objects.py)

Typed records mirroring the attribute sets established by each
`__init__`. Python conventions are mapped as follows: an attribute whose
`kwargs.get` default is `None` becomes an `Option` with default `none`;
string/int/bool/list/dict attributes become `String`/`Nat`/`Bool`/
`List`/`PyDict` respectively; log records (dicts with a `message_type`
and a `message`) are given their own record type. -/

/-- One playbook-run log record, as consumed by
`Playbook.get_exceptions` (`log.get("message_type")`,
`log.get("message")`). -/
structure LogEntry where
  message_type : Option Int := none
  message : String := ""

/-- `Action.__init__` (objects.py lines 83-116). -/
structure ActionM where
  id : Option Nat := none
  name : Option String := none
  action : Option String := none
  app_run : Option Nat := none
  app : Option Nat := none
  app_name : Option String := none
  asset_name : Option String := none
  app_version : Option String := none
  container : Option Nat := none
  container_name : Option String := none
  create_time : Option String := none
  creator : Option String := none
  handle : Option String := none
  end_time : Option String := none
  pretty_end_time : Option String := none
  exception_occurred : Option Bool := none
  message : Option String := none
  app_message : Option String := none
  playbook_run : Option Nat := none
  extra_data : List PyDict := []
  result_summary : PyDict := .nil
  result_data : List PyDict := []
  start_time : Option String := none
  pretty_start_time : Option String := none
  status : Option String := none
  version : Option Nat := none
  effective_user : Option Nat := none
  effective_user_name : Option String := none
  playbook : Option Nat := none

/-- `Artifact.__init__` (objects.py lines 119-148), together with the
`container_id` attribute that `Container.add_artifact`,
`PhantomClient.create_artifacts` and `PhantomClient.delete_artifact`
create dynamically on artifact objects. -/
structure ArtifactM where
  label : Option String := none
  name : Option String := none
  id : Option Nat := none
  tags : List String := []
  cef : PyDict := .nil
  data : PyDict := .nil
  container : Option Nat := none
  cef_types : PyDict := .nil
  description : Option String := none
  end_time : Option String := none
  ingest_app_id : Option Nat := none
  kill_chain : Option String := none
  owner_id : Option String := none
  playbook_run_id : Option Nat := none
  severity_id : String := "low"
  source_data_identifier : Option String := none
  start_time : Option String := none
  type : Option String := none
  update_time : Option String := none
  version : Option Nat := none
  in_case : Bool := false
  parent_container_id : Option Nat := none
  parent_artifact_id : Option Nat := none
  hash : Option String := none
  create_time : Option String := none
  container_id : Option Nat := none

/-- `Playbook.__init__` (objects.py lines 221-273). `prompts` maps an
approval-prompt name to the queue of configured responses. -/
structure PlaybookM where
  actions : List ActionM := []
  name : Option String := none
  id : Option Nat := none
  playbook_id : Option Nat := none
  prompts : List (String × List String) := []
  status : Bool := false
  misc : PyDict := .nil
  run_data : PyDict := .nil
  targets : List PyDict := []
  start_time : Option String := none
  endpoint : String := "playbook_run"
  action_exec : List PyDict := []
  container : Option Nat := none
  ip_address : Option String := none
  log_level : Option Nat := none
  message : Option String := none
  test_mode : Option Bool := none
  last_artifact : Option Nat := none
  version : Option Nat := none
  effective_user : Option Nat := none
  node_guid : Option String := none
  playbook_run_batch : Option Nat := none
  parent_run : Option Nat := none
  inputs : PyDict := .nil
  outputs : PyDict := .nil
  run_id : Option Nat := none
  update_time : Option String := none
  logs : List LogEntry := []

/-- `Playbook.get_exceptions` (objects.py lines 295-296): the log
entries whose `message_type` is `0`. -/
def PlaybookM.get_exceptions (pb : PlaybookM) : List LogEntry :=
  pb.logs.filter (fun l => l.message_type == some 0)

/-- `Playbook.exception_occurred` (objects.py lines 290-293):
`bool(self.get_exceptions())`. -/
def PlaybookM.exception_occurred (pb : PlaybookM) : Bool :=
  !pb.get_exceptions.isEmpty

/-- `Pin.__init__` (objects.py lines 326-332). -/
structure PinM where
  message : Option String := none
  data : Option String := none
  style : Option String := none
  type : Option String := none

/-- `Note.__init__` (objects.py lines 335-356); the `_pretty_*`
attributes are spelled `pretty_*` here. -/
structure NoteM where
  artifact : Option Nat := none
  artifact_name : Option String := none
  author : Option String := none
  container : Option Nat := none
  container_attachments : List String := []
  content : Option String := none
  id : Option Nat := none
  modified_time : Option String := none
  format : String := "markdown"
  type : String := "general"
  phase : Option Nat := none
  task : Option String := none
  task_name : Option String := none
  title : Option String := none
  pretty_author : Option String := none
  pretty_container : Option String := none
  pretty_create_time : Option String := none
  pretty_phase : Option String := none
  pretty_task : Option String := none

/-- `Container.__init__` (objects.py lines 363-408). `start_time`
mirrors the source, which fills it from the `source_data_identifier`
keyword. -/
structure ContainerM where
  name : Option String := none
  label : Option String := none
  id : Option Nat := none
  run_auto : Bool := false
  tags : List String := []
  custom_fields : PyDict := .nil
  description : Option String := none
  artifacts : List ArtifactM := []
  sensitivity : String := "red"
  playbooks : List PlaybookM := []
  pins : List PinM := []
  create_time : Option String := none
  open_time : Option String := none
  end_time : Option String := none
  owner_id : Option String := none
  role_id : Option String := none
  kill_chain : Option String := none
  severity_id : Option Nat := none
  severity : Option String := none
  source_data_identifier : Option String := none
  start_time : Option String := none
  status_id : Option Nat := none
  workflow_name : Option String := none
  owner_name : Option String := none
  container_type : Option String := none
  in_case : Bool := false
  current_phase_id : Option Nat := none
  tenant_id : Option Nat := none
  parent_container_id : Option Nat := none
  node_guid : Option String := none
  status : String := "new"
  artifact_update_time : Option String := none
  asset_id : Option Nat := none
  close_time : Option String := none
  closing_owner_id : Option String := none
  container_update_time : Option String := none
  kill_Chain : Option String := none
  created : Option String := none
  audit_logs : List String := []
  comments : List String := []
  notes : List NoteM := []
  data : PyDict := .nil
  due_time : Option String := none

/-! ## Client operations (client.py)

Remote interaction is embedded by letting each operation return the
ordered trace of HTTP requests it would issue together with an optional
raised error, with the scripted remote responses (run-status counts,
pending-approval lists, post-refresh playbook state) passed as inputs. -/

/-- Python truthiness of an optional integer attribute
(`None` and `0` are falsy). -/
def pyTruthyNat : Option Nat → Bool
  | some n => n != 0
  | none => false

/-- Python truthiness of an optional string attribute
(`None` and `""` are falsy). -/
def pyTruthyStr : Option String → Bool
  | some s => s != ""
  | none => false

/-- The `playbook_id` value `run_playbooks` posts: the numeric base
playbook id when set, otherwise the playbook's name (client.py lines
269-272). -/
inductive PlaybookIdent where
  | byName : Option String → PlaybookIdent
  | byId : Nat → PlaybookIdent
deriving DecidableEq

def playbookStartIdent (pb : PlaybookM) : PlaybookIdent :=
  if pyTruthyNat pb.playbook_id then .byId (pb.playbook_id.getD 0)
  else .byName pb.name

/-- One HTTP request issued by a client operation. -/
inductive ReqKind where
  | postContainer : ReqKind
  | getContainers : ReqKind
  | getArtifacts : ReqKind
  | postPlaybookRun : Nat → PlaybookIdent → String → ReqKind
  | getPlaybookRunStatus : Nat → ReqKind
  | getApprovals : Nat → ReqKind
  | postApprovalAnswer : Nat → List String → ReqKind
  | deleteArtifactReq : Nat → ReqKind
  | refreshContainer : Nat → ReqKind
deriving DecidableEq

/-- `PlaybookException` (exceptions.py lines 56-62): the joined messages
of the playbook's exception-class log entries, and the colorized text
passed to `Exception.__init__`. -/
structure PlaybookExceptionM where
  error_message : String
  args : String

def mkPlaybookException (pb : PlaybookM) : PlaybookExceptionM :=
  let error_message := String.join (pb.get_exceptions.map (fun l => l.message))
  { error_message := error_message
    args := coloramaForeRed ++ error_message ++ coloramaStyleResetAll }

/-- The errors the orchestration path can raise. -/
inductive RunError where
  | containerNotInitialized : RunError
  | noPlaybooksProvided : RunError
  | missingApprovalResponse : String → RunError
  | scriptExhausted : RunError
  | playbookException : PlaybookExceptionM → RunError

/-- One pending approval as returned by the `approval` endpoint
(`approval.get("name")`, `approval.get("id")`). -/
structure Approval where
  id : Nat
  name : String

/-- `PhantomClient.answer_approvals` (client.py lines 331-356): walk the
pending approvals in order; if an approval's name is not a key of the
playbook's `prompts` mapping, raise `MissingApprovalResponse` at once;
otherwise submit the configured responses via `answer_approval`.
Returns the (id, responses) submissions made before any error, plus the
error. -/
def answerApprovals (prompts : List (String × List String)) :
    List Approval → List (Nat × List String) × Option RunError
  | [] => ([], none)
  | ap :: rest =>
      match List.lookup ap.name prompts with
      | none => ([], some (.missingApprovalResponse ap.name))
      | some rs =>
          let r := answerApprovals prompts rest
          ((ap.id, rs) :: r.1, r.2)

/-- `PhantomClient.is_playbook_running` applied to the run-status
response (client.py lines 310-329): `response.get("count", 0) > 0`. -/
def isPlaybookRunningResp (count : Nat) : Bool :=
  count > 0

/-- One scripted iteration of the poll loop: the `count` the
`playbook_run` status query returns and the pending approvals the
`approval` query returns. -/
structure PollStep where
  count : Nat
  approvals : List Approval

/-- Result of the poll loop: request trace, raised error (if any), and
the unconsumed remote script. -/
structure PollResult where
  trace : List ReqKind
  err : Option RunError
  rest : List PollStep

/-- The `while playbook_running` loop of `run_playbooks` (client.py
lines 283-293): each iteration queries run status, queries pending
approvals, and answers any pending approvals; it exits when the status
query stops reporting a running playbook. -/
def pollLoop (prompts : List (String × List String)) (cid : Nat) :
    List PollStep → PollResult
  | [] => ⟨[], some .scriptExhausted, []⟩
  | step :: rest =>
      let answered := answerApprovals prompts step.approvals
      let answerReqs := answered.1.map (fun s => ReqKind.postApprovalAnswer s.1 s.2)
      match answered.2 with
      | some e =>
          ⟨ReqKind.getPlaybookRunStatus cid :: ReqKind.getApprovals cid
            :: answerReqs, some e, rest⟩
      | none =>
          if isPlaybookRunningResp step.count then
            let r := pollLoop prompts cid rest
            ⟨ReqKind.getPlaybookRunStatus cid :: ReqKind.getApprovals cid
              :: answerReqs ++ r.trace, r.err, r.rest⟩
          else
            ⟨ReqKind.getPlaybookRunStatus cid :: ReqKind.getApprovals cid
              :: answerReqs, none, rest⟩

/-- The per-playbook start-then-poll phase of `run_playbooks` (client.py
lines 266-293): post a `playbook_run` start request for each playbook,
then run the poll loop until that run leaves the running state. -/
def runEach (cid : Nat) (scope : String) :
    List PlaybookM → List PollStep → PollResult
  | [], script => ⟨[], none, script⟩
  | pb :: rest, script =>
      let startReq := ReqKind.postPlaybookRun cid (playbookStartIdent pb) scope
      let r := pollLoop pb.prompts cid script
      match r.err with
      | some e => ⟨startReq :: r.trace, some e, r.rest⟩
      | none =>
          let r2 := runEach cid scope rest r.rest
          ⟨startReq :: r.trace ++ r2.trace, r2.err, r2.rest⟩

/-- The playbooks `run_playbooks` starts: those on the container without
a `run_id`, then the argument playbooks (client.py lines 261-264). -/
def notRanPlaybooks (c : ContainerM) (args : List PlaybookM) : List PlaybookM :=
  c.playbooks.filter (fun pb => !pyTruthyNat pb.run_id) ++ args

/-- `PhantomClient.run_playbooks` (client.py lines 235-298): check the
container identity and playbook preconditions before any request; start
and poll each playbook; then refresh the container
(`update_container_values`, abstracted as one refresh request, with the
post-refresh playbook state passed in as `refreshed`) and raise a
`PlaybookException` for the first refreshed playbook whose derived
exception flag is set. -/
def runPlaybooks (c : ContainerM) (args : List PlaybookM) (scope : String)
    (script : List PollStep) (refreshed : List PlaybookM) :
    List ReqKind × Option RunError :=
  if !pyTruthyNat c.id then ([], some .containerNotInitialized)
  else if c.playbooks.isEmpty && args.isEmpty then
    ([], some .noPlaybooksProvided)
  else
    let cid := c.id.getD 0
    let r := runEach cid scope (notRanPlaybooks c args) script
    match r.err with
    | some e => (r.trace, some e)
    | none =>
        let trace := r.trace ++ [ReqKind.refreshContainer cid]
        match refreshed.find? (fun pb => pb.exception_occurred) with
        | some pb => (trace, some (.playbookException (mkPlaybookException pb)))
        | none => (trace, none)

/-- The errors `create_container` can raise. -/
inductive CreateError where
  | existingContainer : CreateError
  | missingNameAndLabel : CreateError
  | artifactMissingNameAndLabel : CreateError
deriving DecidableEq

/-- `PhantomClient.create_container` (client.py lines 163-208): reject a
container that already carries an id, then one missing both name and
label, then one holding an artifact missing both name and label — all
before any request; otherwise post the container, fetch it back and
refresh its artifacts. -/
def createContainer (c : ContainerM) : List ReqKind × Option CreateError :=
  if pyTruthyNat c.id then ([], some .existingContainer)
  else if !pyTruthyStr c.name && !pyTruthyStr c.label then
    ([], some .missingNameAndLabel)
  else if c.artifacts.any (fun a => !pyTruthyStr a.name && !pyTruthyStr a.label)
  then ([], some .artifactMissingNameAndLabel)
  else ([.postContainer, .getContainers, .getArtifacts], none)

/-- The error `delete_artifact` can raise. -/
inductive DelError where
  | artifactNotInitialized : DelError
deriving DecidableEq

/-- Result of deleting one artifact: the request issued (if any), the
raised error (if any), and the artifact object after the call (when an
object rather than a bare id was passed). -/
structure DeleteResult where
  request : Option ReqKind
  err : Option DelError
  mutated : Option ArtifactM

/-- The loop body of `PhantomClient.delete_artifact` (client.py lines
578-593) for one argument: resolve the artifact id (raising when it is
falsy), issue the DELETE request, and — only when an `Artifact` object
was passed — clear its `id` and `container_id` attributes. -/
def deleteArtifactOne : ArtifactM ⊕ Nat → DeleteResult
  | .inl a =>
      if pyTruthyNat a.id then
        ⟨some (.deleteArtifactReq (a.id.getD 0)), none,
          some { a with id := none, container_id := none }⟩
      else ⟨none, some .artifactNotInitialized, some a⟩
  | .inr n =>
      if n != 0 then ⟨some (.deleteArtifactReq n), none, none⟩
      else ⟨none, some .artifactNotInitialized, none⟩

/-! ## Orchestrator and client-operation theorems -/

/-- C3: when the remote run-status endpoint reports the sequence
running, running, not-running (counts positive, positive, zero) and the
approvals endpoint reports no pending approvals, the poll loop issues
exactly 3 run-status queries and exits without raising. -/
theorem c3_poll_loop_three_status_checks (prompts : List (String × List String))
    (cid c1 c2 : Nat) (h1 : 0 < c1) (h2 : 0 < c2) :
    (pollLoop prompts cid [⟨c1, []⟩, ⟨c2, []⟩, ⟨0, []⟩]).trace.count
        (ReqKind.getPlaybookRunStatus cid) = 3 ∧
    (pollLoop prompts cid [⟨c1, []⟩, ⟨c2, []⟩, ⟨0, []⟩]).err = none := by
  have e1 : isPlaybookRunningResp c1 = true := by
    simp [isPlaybookRunningResp, h1]
  have e2 : isPlaybookRunningResp c2 = true := by
    simp [isPlaybookRunningResp, h2]
  have e3 : isPlaybookRunningResp 0 = false := rfl
  simp [pollLoop, answerApprovals, e1, e2, e3, List.count_cons]

/-- Witness for C3 at a concrete script. -/
theorem c3_poll_loop_three_status_checks_witness :
    (pollLoop [] 1 [⟨1, []⟩, ⟨2, []⟩, ⟨0, []⟩]).trace.count
        (ReqKind.getPlaybookRunStatus 1) = 3 ∧
    (pollLoop [] 1 [⟨1, []⟩, ⟨2, []⟩, ⟨0, []⟩]).err = none :=
  c3_poll_loop_three_status_checks [] 1 1 2 (by decide) (by decide)

/-- C4: a single pending approval whose name is not a key of the
playbook's prompts mapping makes `answer_approvals` raise
`MissingApprovalResponse` without submitting any approval answer. -/
theorem c4_missing_approval_response (prompts : List (String × List String))
    (ap : Approval) (h : List.lookup ap.name prompts = none) :
    answerApprovals prompts [ap]
      = ([], some (RunError.missingApprovalResponse ap.name)) := by
  simp [answerApprovals, h]

/-- Witness for C4 at a concrete approval and prompt mapping. -/
theorem c4_missing_approval_response_witness :
    answerApprovals [("expected_prompt", ["yes"])] [⟨9, "other_prompt"⟩]
      = ([], some (RunError.missingApprovalResponse "other_prompt")) :=
  c4_missing_approval_response [("expected_prompt", ["yes"])]
    ⟨9, "other_prompt"⟩ rfl

/-- C5: once all started runs have left the running state (the poll
phase ends without error), if the refreshed container holds a playbook
with exception-class log entries, `run_playbooks` raises one aggregated
`PlaybookException` whose carried message is the concatenation of the
message texts of all such entries; with exactly one such entry the
message equals that entry's text. -/
theorem c5_aggregated_playbook_exception (c : ContainerM)
    (args refreshed : List PlaybookM) (scope : String)
    (script : List PollStep) (pb : PlaybookM)
    (hid : pyTruthyNat c.id = true)
    (hpb : (c.playbooks.isEmpty && args.isEmpty) = false)
    (hloop : (runEach (c.id.getD 0) scope (notRanPlaybooks c args) script).err
      = none)
    (hfind : refreshed.find? (fun p => p.exception_occurred) = some pb) :
    runPlaybooks c args scope script refreshed
      = ((runEach (c.id.getD 0) scope (notRanPlaybooks c args) script).trace
          ++ [ReqKind.refreshContainer (c.id.getD 0)],
         some (.playbookException (mkPlaybookException pb))) ∧
    (mkPlaybookException pb).error_message
      = String.join ((pb.logs.filter (fun l => l.message_type == some 0)).map
          (fun l => l.message)) ∧
    (∀ e, pb.logs.filter (fun l => l.message_type == some 0) = [e] →
      (mkPlaybookException pb).error_message = e.message) := by
  refine ⟨?_, rfl, ?_⟩
  · simp only [runPlaybooks, hid, Bool.not_true, Bool.false_eq_true, if_false,
      hpb, hloop, hfind]
  · intro e he
    show String.join ((pb.logs.filter (fun l => l.message_type == some 0)).map
      (fun l => l.message)) = e.message
    rw [he]
    simp [String.join]

/-- Witness for C5: a concrete container, a one-step script that
reports the run finished, and a refreshed playbook carrying a single
exception-class log entry. -/
theorem c5_aggregated_playbook_exception_witness :
    runPlaybooks { id := some 1, playbooks := [{ name := some "pb" }] } []
        "all" [⟨0, []⟩]
        [{ name := some "pb", logs := [⟨some 0, "node failure"⟩] }]
      = ((runEach 1 "all"
            (notRanPlaybooks { id := some 1, playbooks := [{ name := some "pb" }] } [])
            [⟨0, []⟩]).trace ++ [ReqKind.refreshContainer 1],
         some (.playbookException (mkPlaybookException
           { name := some "pb", logs := [⟨some 0, "node failure"⟩] }))) ∧
    (mkPlaybookException
        { name := some "pb", logs := [⟨some 0, "node failure"⟩] }).error_message
      = "node failure" := by
  have h := c5_aggregated_playbook_exception
    { id := some 1, playbooks := [{ name := some "pb" }] } []
    [{ name := some "pb", logs := [⟨some 0, "node failure"⟩] }] "all"
    [⟨0, []⟩] { name := some "pb", logs := [⟨some 0, "node failure"⟩] }
    rfl rfl rfl rfl
  exact ⟨h.1, h.2.2 ⟨some 0, "node failure"⟩ rfl⟩

/-- C6: `create_container` on a container already carrying an id always
fails with the existing-container precondition error before issuing any
request. -/
theorem c6_create_existing_container (c : ContainerM)
    (h : pyTruthyNat c.id = true) :
    createContainer c = ([], some CreateError.existingContainer) := by
  simp [createContainer, h]

/-- Witness for C6 at a concrete initialized container. -/
theorem c6_create_existing_container_witness :
    createContainer { id := some 3, name := some "case", label := some "events" }
      = ([], some CreateError.existingContainer) :=
  c6_create_existing_container
    { id := some 3, name := some "case", label := some "events" } rfl

/-- C7: `run_playbooks` fails before issuing any request when the
container has no identity (container-not-initialized), or when no
playbooks are supplied on the container or as arguments (precondition
error); in both cases the request trace is empty. -/
theorem c7_run_playbooks_preconditions (c : ContainerM) (args : List PlaybookM)
    (scope : String) (script : List PollStep) (refreshed : List PlaybookM) :
    (pyTruthyNat c.id = false →
      runPlaybooks c args scope script refreshed
        = ([], some RunError.containerNotInitialized)) ∧
    (pyTruthyNat c.id = true → c.playbooks = [] → args = [] →
      runPlaybooks c args scope script refreshed
        = ([], some RunError.noPlaybooksProvided)) := by
  constructor
  · intro h
    simp [runPlaybooks, h]
  · intro h h1 h2
    simp [runPlaybooks, h, h1, h2]

/-- Witness for C7: an uninitialized container, and an initialized
container with no playbooks anywhere. -/
theorem c7_run_playbooks_preconditions_witness :
    runPlaybooks {} [] "all" [] []
      = ([], some RunError.containerNotInitialized) ∧
    runPlaybooks { id := some 4 } [] "all" [] []
      = ([], some RunError.noPlaybooksProvided) :=
  ⟨(c7_run_playbooks_preconditions {} [] "all" [] []).1 rfl,
   (c7_run_playbooks_preconditions { id := some 4 } [] "all" [] []).2
     rfl rfl rfl⟩

/-- C8: deleting an artifact passed as an object issues the DELETE
request and then clears exactly its `id` and its owning-container
back-reference `container_id`, leaving every other attribute unchanged;
deleting by bare integer id mutates no object. -/
theorem c8_delete_artifact_frame (a : ArtifactM) (n : Nat)
    (h : pyTruthyNat a.id = true) :
    deleteArtifactOne (.inl a)
      = ⟨some (.deleteArtifactReq (a.id.getD 0)), none,
          some { a with id := none, container_id := none }⟩ ∧
    (deleteArtifactOne (.inr n)).mutated = none := by
  constructor
  · simp [deleteArtifactOne, h]
  · cases hn : (n != 0) <;> simp [deleteArtifactOne, hn]

/-- Witness for C8 at a concrete artifact and a bare id. -/
theorem c8_delete_artifact_frame_witness :
    deleteArtifactOne (.inl { id := some 7, name := some "evidence", container := some 3, container_id := some 3 })
      = ⟨some (.deleteArtifactReq 7), none,
          some { name := some "evidence", container := some 3 }⟩ ∧
    (deleteArtifactOne (.inr 5)).mutated = none :=
  c8_delete_artifact_frame
    { id := some 7, name := some "evidence", container := some 3, container_id := some 3 } 5 rfl
